import Mathlib

/-
Shallow embedding of the TempHumidDisplay Arduino sketch
(src/TempHumidDisplay.ino, later revision with configurable thresholds).
Display-driver calls are embedded as traces of DisplayOp values; the
process-wide globals and the static locals of the sketch are gathered into
the SystemState record; the EEPROM is embedded as the record stored at
address 0.
-/

namespace TempHumidDisplay

/-- Display modes of the sketch (enum DisplayMode), in cyclic order. The END
sentinel exists in the source only to take the integer modulo and is embedded
by the cyclic successor function nextMode instead. -/
inductive DisplayMode
  | live
  | min
  | max
  | humidifierEnabled
  | humidifierLowerOnThreshold
  | humidifierUpperOffThreshold
deriving DecidableEq, Repr

/-- Struct PersistentConfiguration: the record persisted to the EEPROM.
Byte fields are embedded as Nat with arithmetic taken modulo 256 where the
source performs byte assignments. -/
structure PersistentConfiguration where
  magicNumber : Nat
  humidifierLowerOnThreshold : Nat
  humidifierUpperOffThreshold : Nat
  humidifierEnabled : Bool
deriving DecidableEq, Repr

/-- EEPROM_MAGIC_NUMBER. -/
def EEPROM_MAGIC_NUMBER : Nat := 0xBABE

/-- PersistentConfiguration() built from the default member initializers. -/
def defaultConfiguration : PersistentConfiguration :=
  { magicNumber := EEPROM_MAGIC_NUMBER
    humidifierLowerOnThreshold := 80
    humidifierUpperOffThreshold := 96
    humidifierEnabled := true }

/-- Class DisplayData: integer temperature and humidity. -/
structure DisplayData where
  temperature : Int
  humidity : Int
deriving DecidableEq, Repr

/-- One display-driver call emitted by the rendering code: either a raw
segment write display.write(digit, mask, 0) or a decimal print
display.printDigit(value, DISPLAY_NCHIP, digit). -/
inductive DisplayOp
  | write (digit : Nat) (mask : Nat)
  | printDigit (value : Int) (digit : Nat)
deriving DecidableEq, Repr

/-- getBlinkStatus(): (millis() - modeSelectedTime) % 1000 > 500, with the
32-bit unsigned wraparound of the Arduino subtraction made explicit. -/
def getBlinkStatus (now modeSelectedTime : Nat) : Bool :=
  decide ((((now + 4294967296) - modeSelectedTime) % 4294967296) % 1000 > 500)

/-- printTwoDigitValue(value, digit): when value < 10 the higher digit is
written with the raw bitmask 0, when value > 99 the value is lowered to 99,
then the value is printed at the given digit position. -/
def printTwoDigitValue (value : Int) (digit : Nat) : List DisplayOp :=
  if value < 10 then
    [DisplayOp.write (digit + 2) 0, DisplayOp.printDigit value digit]
  else if value > 99 then
    [DisplayOp.printDigit 99 digit]
  else
    [DisplayOp.printDigit value digit]

/-- printCelsiusAndRelHumiditySigns(): the degree-C and rH glyph writes. -/
def printCelsiusAndRelHumiditySigns : List DisplayOp :=
  [DisplayOp.write 6 0b01100011, DisplayOp.write 5 0b01001110,
   DisplayOp.write 2 0b00000101, DisplayOp.write 1 0b00110111]

/-- printTempHumidityMaximumSigns(): the top-bar marker writes for max mode. -/
def printTempHumidityMaximumSigns : List DisplayOp :=
  [DisplayOp.write 6 0b01000000, DisplayOp.write 5 0b01000000,
   DisplayOp.write 2 0b01000000, DisplayOp.write 1 0b01000000]

/-- printTempHumidityMinimumSigns(): the bottom-bar marker writes for min mode. -/
def printTempHumidityMinimumSigns : List DisplayOp :=
  [DisplayOp.write 6 0b00001000, DisplayOp.write 5 0b00001000,
   DisplayOp.write 2 0b00001000, DisplayOp.write 1 0b00001000]

/-- printTempAndHumidityOverview(data, signsFunction), with the millis() clock
and the modeSelectedTime global passed explicitly. The signsFunction pointer is
embedded as the trace that function emits; none embeds the NULL pointer. -/
def printTempAndHumidityOverview (data : DisplayData)
    (signsFunction : Option (List DisplayOp)) (now modeSelectedTime : Nat) :
    List DisplayOp :=
  (if getBlinkStatus now modeSelectedTime || signsFunction.isNone then
    printCelsiusAndRelHumiditySigns
  else
    signsFunction.getD []) ++
  printTwoDigitValue data.temperature 6 ++
  printTwoDigitValue data.humidity 2

/-- printHumidifierConfigValueWithBlinking(value, blinkByte), with the clock
and the modeSelectedTime global passed explicitly. -/
def printHumidifierConfigValueWithBlinking (value : Nat) (blinkByte : Nat)
    (now modeSelectedTime : Nat) : List DisplayOp :=
  (if getBlinkStatus now modeSelectedTime then
    [DisplayOp.write 2 0b00000101, DisplayOp.write 1 0b00110111]
  else
    [DisplayOp.write 2 blinkByte, DisplayOp.write 1 blinkByte]) ++
  printTwoDigitValue (value : Int) 2

/-- The mutable process-wide state of the sketch: the in-memory configuration,
the EEPROM record at address 0, the relay flag and the level last written to
the relay pin by digitalWrite, the mode machinery, the live/min/max data with
the static initialization flag of updateSensorData, the static brightness of
onActionButton and the static nextSensorSampling of loop. Display writes are
carried by the DisplayOp traces of the print functions, not by this state. -/
structure SystemState where
  persistentConfiguration : PersistentConfiguration
  eeprom : PersistentConfiguration
  humidifierOn : Bool
  relayPin : Bool
  currentMode : DisplayMode
  modeSelectedTime : Nat
  liveData : DisplayData
  minData : DisplayData
  maxData : DisplayData
  hasInitializedMinMax : Bool
  brightness : Nat
  nextSensorSampling : Nat
deriving DecidableEq, Repr

/-- onActionButton(pinIn, duration): dispatch on the current mode.
Display output (setBright, updateDisplay, presentResetAnimation) does not
touch this state; configuration mutations also write the EEPROM. -/
def onActionButton (s : SystemState) : SystemState :=
  match s.currentMode with
  | DisplayMode.live =>
    { s with brightness := if s.brightness = 0 then 8 else 0 }
  | DisplayMode.max =>
    { s with maxData := s.liveData }
  | DisplayMode.min =>
    { s with minData := s.liveData }
  | DisplayMode.humidifierEnabled =>
    let cfg := { s.persistentConfiguration with
                 humidifierEnabled := !s.persistentConfiguration.humidifierEnabled }
    { s with persistentConfiguration := cfg, eeprom := cfg }
  | DisplayMode.humidifierLowerOnThreshold =>
    let lower := (s.persistentConfiguration.humidifierLowerOnThreshold + 2) % 256
    let lower := if lower ≥ s.persistentConfiguration.humidifierUpperOffThreshold
                 then 60 else lower
    let cfg := { s.persistentConfiguration with humidifierLowerOnThreshold := lower }
    { s with persistentConfiguration := cfg, eeprom := cfg }
  | DisplayMode.humidifierUpperOffThreshold =>
    let upper := (s.persistentConfiguration.humidifierUpperOffThreshold + 2) % 256
    let upper := if upper > 100 - 2
                 then (s.persistentConfiguration.humidifierLowerOnThreshold + 2) % 256
                 else upper
    let cfg := { s.persistentConfiguration with humidifierUpperOffThreshold := upper }
    { s with persistentConfiguration := cfg, eeprom := cfg }

/-- Cyclic successor of a mode: static_cast of (currentMode + 1) % END. -/
def nextMode : DisplayMode → DisplayMode
  | DisplayMode.live => DisplayMode.min
  | DisplayMode.min => DisplayMode.max
  | DisplayMode.max => DisplayMode.humidifierEnabled
  | DisplayMode.humidifierEnabled => DisplayMode.humidifierLowerOnThreshold
  | DisplayMode.humidifierLowerOnThreshold => DisplayMode.humidifierUpperOffThreshold
  | DisplayMode.humidifierUpperOffThreshold => DisplayMode.live

/-- onNextModeButton(pinIn, duration): advance the mode and restamp
modeSelectedTime with millis(). -/
def onNextModeButton (s : SystemState) (now : Nat) : SystemState :=
  { s with currentMode := nextMode s.currentMode, modeSelectedTime := now }

/-- updateRelayStatus(): two-threshold hysteresis on humidifierOn, then
digitalWrite of the active-low level !(humidifierOn && humidifierEnabled)
to the relay pin. -/
def updateRelayStatus (s : SystemState) : SystemState :=
  let humidifierOn :=
    if ¬s.humidifierOn ∧
       s.liveData.humidity ≤ (s.persistentConfiguration.humidifierLowerOnThreshold : Int) then
      true
    else if s.humidifierOn ∧
       s.liveData.humidity ≥ (s.persistentConfiguration.humidifierUpperOffThreshold : Int) then
      false
    else
      s.humidifierOn
  { s with humidifierOn := humidifierOn,
           relayPin := !(humidifierOn && s.persistentConfiguration.humidifierEnabled) }

/-- updateSensorData(), stage 1: store the rounded sensor reading in liveData. -/
def updateSensorDataLive (s : SystemState) (t h : Int) : SystemState :=
  { s with liveData := { temperature := t, humidity := h } }

/-- updateSensorData(), stage 2: one-time lazy initialization of minData and
maxData from liveData, guarded by the static flag. -/
def updateSensorDataInit (s : SystemState) : SystemState :=
  if s.hasInitializedMinMax = false then
    { s with minData := s.liveData, maxData := s.liveData, hasInitializedMinMax := true }
  else
    s

/-- updateSensorData(), stage 3: lower the minimum temperature. -/
def updateSensorDataMinTemp (s : SystemState) : SystemState :=
  if s.liveData.temperature < s.minData.temperature then
    { s with minData := { s.minData with temperature := s.liveData.temperature } }
  else
    s

/-- updateSensorData(), stage 4: raise the maximum temperature. -/
def updateSensorDataMaxTemp (s : SystemState) : SystemState :=
  if s.liveData.temperature > s.maxData.temperature then
    { s with maxData := { s.maxData with temperature := s.liveData.temperature } }
  else
    s

/-- updateSensorData(), stage 5: lower the minimum humidity. -/
def updateSensorDataMinHumidity (s : SystemState) : SystemState :=
  if s.liveData.humidity < s.minData.humidity then
    { s with minData := { s.minData with humidity := s.liveData.humidity } }
  else
    s

/-- updateSensorData(), stage 6: raise the maximum humidity. -/
def updateSensorDataMaxHumidity (s : SystemState) : SystemState :=
  if s.liveData.humidity > s.maxData.humidity then
    { s with maxData := { s.maxData with humidity := s.liveData.humidity } }
  else
    s

/-- updateSensorData(): the six statements of the source in order. -/
def updateSensorData (s : SystemState) (t h : Int) : SystemState :=
  updateSensorDataMaxHumidity
    (updateSensorDataMinHumidity
      (updateSensorDataMaxTemp
        (updateSensorDataMinTemp
          (updateSensorDataInit
            (updateSensorDataLive s t h)))))

/-- One iteration of loop(): debounced button events arrive as booleans
(action first, next-mode second, matching the process order), then the
sensor-sampling tick runs updateSensorData and updateRelayStatus when due.
updateDisplay at the end only emits display writes. -/
def loopStep (s : SystemState) (now : Nat) (actionPressed nextModePressed : Bool)
    (reading : Int × Int) (samplingPeriod : Nat) : SystemState :=
  let s1 := if actionPressed then onActionButton s else s
  let s2 := if nextModePressed then onNextModeButton s1 now else s1
  if now > s2.nextSensorSampling then
    updateRelayStatus
      (updateSensorData { s2 with nextSensorSampling := now + samplingPeriod }
        reading.1 reading.2)
  else
    s2

/-- The EEPROM handling of setup(): EEPROM.get, magic-number check, and on
mismatch EEPROM.put of PersistentConfiguration() followed by EEPROM.get.
Returns the EEPROM contents after setup and the in-memory
persistentConfiguration. -/
def setupLoadConfiguration (eeprom : PersistentConfiguration) :
    PersistentConfiguration × PersistentConfiguration :=
  let persistentConfiguration := eeprom
  if persistentConfiguration.magicNumber ≠ EEPROM_MAGIC_NUMBER then
    (defaultConfiguration, defaultConfiguration)
  else
    (eeprom, persistentConfiguration)

/-- The global initializers of the sketch, with the EEPROM already holding a
defaulted record: a convenient concrete base state for instances. -/
def initialState : SystemState :=
  { persistentConfiguration := defaultConfiguration
    eeprom := defaultConfiguration
    humidifierOn := false
    relayPin := false
    currentMode := DisplayMode.live
    modeSelectedTime := 0
    liveData := { temperature := 0, humidity := 0 }
    minData := { temperature := 0, humidity := 0 }
    maxData := { temperature := 0, humidity := 0 }
    hasInitializedMinMax := false
    brightness := 0
    nextSensorSampling := 0 }

/-- A threshold-edit button action: a press of the action button while one of
the two threshold modes is active. -/
inductive ThresholdAction
  | bumpLower
  | bumpUpper
deriving DecidableEq, Repr

/-- The mode in which a threshold-edit action is performed. -/
def thresholdMode : ThresholdAction → DisplayMode
  | ThresholdAction.bumpLower => DisplayMode.humidifierLowerOnThreshold
  | ThresholdAction.bumpUpper => DisplayMode.humidifierUpperOffThreshold

/-- Run a finite sequence of threshold-edit button actions: before each press
the user has navigated to the matching threshold mode. -/
def runThresholdActions (s : SystemState) (acts : List ThresholdAction) : SystemState :=
  acts.foldl (fun s a => onActionButton { s with currentMode := thresholdMode a }) s

/-- Feed a sequence of humidity readings through the sampling branch of
loop(): updateSensorData followed by updateRelayStatus for each reading
(temperature held at 0, which the relay logic ignores). -/
def relayAfterReadings (s : SystemState) (hs : List Int) : SystemState :=
  hs.foldl (fun s h => updateRelayStatus (updateSensorData s 0 h)) s

/-- The concrete configuration of the hysteresis example: lower threshold 80
and upper threshold 95, relay off. -/
def exampleHysteresisState : SystemState :=
  { initialState with
    persistentConfiguration :=
      { defaultConfiguration with
        humidifierLowerOnThreshold := 80
        humidifierUpperOffThreshold := 95 } }

/- Helper lemmas -/

/-- When the anchor does not exceed the clock and the elapsed time fits in 32
bits, the wraparound subtraction in getBlinkStatus reduces to the plain
difference. -/
theorem getBlinkStatus_eq_of_le (now anchor : Nat) (h1 : anchor ≤ now)
    (h2 : now - anchor < 4294967296) :
    getBlinkStatus now anchor = decide (500 < (now - anchor) % 1000) := by
  unfold getBlinkStatus
  have e1 : now + 4294967296 - anchor = (now - anchor) + 4294967296 := by omega
  rw [e1, Nat.add_mod_right, Nat.mod_eq_of_lt h2]

/- Claim C3 -/

/-- Claim C3, counterexample: the claim places an elapsed time of exactly
500ms (the boundary of the halves) in the true phase, but getBlinkStatus at
now = 500 with anchor 0 is false, since the source compares with a strict
greater-than against 500. -/
theorem C3_blink_phase_counterexample :
    ((500 : Nat) - 0) % 1000 = 500 ∧ getBlinkStatus 500 0 = false := by
  constructor
  · rfl
  · rfl

/-- Claim C3, amended: for every anchor timestamp and render time with
anchor ≤ t and an elapsed time below 2 to the 32, the blink phase is false
exactly when (t - anchor) mod 1000 lies in [0, 500] and true exactly when it
lies in [501, 1000). -/
theorem C3_blink_phase (t anchor : Nat) (h1 : anchor ≤ t)
    (h2 : t - anchor < 4294967296) :
    (getBlinkStatus t anchor = false ↔ (t - anchor) % 1000 ≤ 500) ∧
    (getBlinkStatus t anchor = true ↔ 500 < (t - anchor) % 1000) := by
  rw [getBlinkStatus_eq_of_le t anchor h1 h2]
  constructor
  · simp
  · simp

/-- Claim C3, witness: at t = 1700 with anchor 100 the elapsed time is 1600,
1600 mod 1000 = 600 lies in the second half, and the blink phase is true. -/
theorem C3_blink_phase_witness :
    getBlinkStatus 1700 100 = true ↔ 500 < ((1700 : Nat) - 100) % 1000 :=
  (C3_blink_phase 1700 100 (by decide) (by decide)).2

/- Claim C1 -/

/-- Claim C1, counterexample: at render time 0 with anchor 0 the elapsed time
0 lies in the first half of the blink cycle, yet the overview renderer in min
mode emits the min marker glyphs, not the normal degree-C and rH glyphs the
claim requires for the first half; likewise the threshold renderer emits the
marker byte, not the rH label. -/
theorem C1_blink_halves_counterexample :
    ((0 : Nat) - 0) % 1000 < 500 ∧
    printTempAndHumidityOverview { temperature := 20, humidity := 50 }
        (some printTempHumidityMinimumSigns) 0 0 =
      printTempHumidityMinimumSigns ++ printTwoDigitValue 20 6 ++ printTwoDigitValue 50 2 ∧
    printTempHumidityMinimumSigns ≠ printCelsiusAndRelHumiditySigns ∧
    printHumidifierConfigValueWithBlinking 80 0b00001000 0 0 =
      [DisplayOp.write 2 0b00001000, DisplayOp.write 1 0b00001000] ++
        printTwoDigitValue (80 : Int) 2 := by
  refine ⟨by decide, by decide, by decide, by decide⟩

/-- Claim C1, amended: in every display mode with an alternate glyph, during
the FIRST half of each 1000ms blink cycle (elapsed mod 1000 in [0, 500]) the
display shows the mode-specific alternate marker glyphs, and during the
SECOND half (elapsed mod 1000 in [501, 999]) it shows the normal glyphs
(degree-C and rH in min/max via printCelsiusAndRelHumiditySigns, the rH label
in the threshold modes). -/
theorem C1_blink_halves (now anchor : Nat) (h1 : anchor ≤ now)
    (h2 : now - anchor < 4294967296) :
    ((now - anchor) % 1000 ≤ 500 →
      (∀ data signs, printTempAndHumidityOverview data (some signs) now anchor =
        signs ++ printTwoDigitValue data.temperature 6 ++
          printTwoDigitValue data.humidity 2) ∧
      (∀ value blinkByte,
        printHumidifierConfigValueWithBlinking value blinkByte now anchor =
          [DisplayOp.write 2 blinkByte, DisplayOp.write 1 blinkByte] ++
            printTwoDigitValue (value : Int) 2)) ∧
    (500 < (now - anchor) % 1000 →
      (∀ data signs, printTempAndHumidityOverview data (some signs) now anchor =
        printCelsiusAndRelHumiditySigns ++ printTwoDigitValue data.temperature 6 ++
          printTwoDigitValue data.humidity 2) ∧
      (∀ value blinkByte,
        printHumidifierConfigValueWithBlinking value blinkByte now anchor =
          [DisplayOp.write 2 0b00000101, DisplayOp.write 1 0b00110111] ++
            printTwoDigitValue (value : Int) 2)) := by
  have hb := getBlinkStatus_eq_of_le now anchor h1 h2
  constructor
  · intro hle
    have hfalse : getBlinkStatus now anchor = false := by
      rw [hb]
      simpa using hle
    constructor
    · intro data signs
      simp [printTempAndHumidityOverview, hfalse]
    · intro value blinkByte
      simp [printHumidifierConfigValueWithBlinking, hfalse]
  · intro hgt
    have htrue : getBlinkStatus now anchor = true := by
      rw [hb]
      simpa using hgt
    constructor
    · intro data signs
      simp [printTempAndHumidityOverview, htrue]
    · intro value blinkByte
      simp [printHumidifierConfigValueWithBlinking, htrue]

/-- Claim C1, witness: at render time 501 with anchor 0 the elapsed time lies
in the second half, and both renderers show the normal glyphs. -/
theorem C1_blink_halves_witness :
    printTempAndHumidityOverview { temperature := 20, humidity := 50 }
        (some printTempHumidityMinimumSigns) 501 0 =
      printCelsiusAndRelHumiditySigns ++ printTwoDigitValue 20 6 ++
        printTwoDigitValue 50 2 ∧
    printHumidifierConfigValueWithBlinking 80 0b00001000 501 0 =
      [DisplayOp.write 2 0b00000101, DisplayOp.write 1 0b00110111] ++
        printTwoDigitValue (80 : Int) 2 := by
  have h := (C1_blink_halves 501 0 (by decide) (by decide)).2 (by decide)
  exact ⟨h.1 { temperature := 20, humidity := 50 } printTempHumidityMinimumSigns,
         h.2 80 0b00001000⟩

/- Claim C2 -/

/-- Claim C2, counterexample: the claim says every integer value is clamped
to [0, 99], but at value -3 the renderer clears the higher digit and passes
-3 through to printDigit unchanged; moreover the cleared digit receives the
raw bitmask 0 (all segments off, a blank), not a digit glyph. -/
theorem C2_two_digit_counterexample :
    printTwoDigitValue (-3) 2 =
      [DisplayOp.write 4 0, DisplayOp.printDigit (-3) 2] ∧
    ((-3 : Int) < 0) := by
  refine ⟨by decide, by decide⟩

/-- Claim C2, amended: for every nonnegative value the printed value is
min value 99 (so 105 renders as 99), and when the value is below 10 the tens
digit position is first written with the raw all-segments-off bitmask 0
(cleared, so 7 renders as a cleared tens digit followed by the glyph 7);
negative values are passed through to printDigit without a lower clamp. -/
theorem C2_two_digit_rendering (v : Int) (d : Nat) (h : 0 ≤ v) :
    printTwoDigitValue v d =
      (if v < 10 then [DisplayOp.write (d + 2) 0] else []) ++
        [DisplayOp.printDigit (min v 99) d] := by
  unfold printTwoDigitValue
  split
  · rename_i h10
    have : min v 99 = v := by omega
    rw [this]
    rfl
  · rename_i h10
    split
    · rename_i h99
      have : min v 99 = 99 := by omega
      rw [this]
      rfl
    · rename_i h99
      have : min v 99 = v := by omega
      rw [this]
      rfl

/-- Claim C2, witness: value 7 renders as a cleared tens position (bitmask 0)
followed by printDigit 7, and value 105 renders as printDigit 99. -/
theorem C2_two_digit_rendering_witness :
    printTwoDigitValue 7 2 =
      (if (7 : Int) < 10 then [DisplayOp.write 4 0] else []) ++
        [DisplayOp.printDigit (min 7 99) 2] ∧
    printTwoDigitValue 105 2 =
      (if (105 : Int) < 10 then [DisplayOp.write 4 0] else []) ++
        [DisplayOp.printDigit (min 105 99) 2] :=
  ⟨C2_two_digit_rendering 7 2 (by decide), C2_two_digit_rendering 105 2 (by decide)⟩

/- Claim C4 -/

/-- Claim C4: updateRelayStatus implements two-threshold hysteresis — off and
humidity at or below the lower threshold turns on; on and humidity at or
above the upper threshold turns off; any humidity strictly between the two
thresholds leaves the state unchanged. With lower = 80 and upper = 95 and the
relay initially off, the reading sequence [85, 80, 79] turns the relay on
exactly at the reading 80, keeps it on through 79 and through values strictly
between the two thresholds, and a reading of 95 turns it off. -/
theorem C4_relay_hysteresis (s : SystemState) :
    (¬s.humidifierOn →
      s.liveData.humidity ≤ (s.persistentConfiguration.humidifierLowerOnThreshold : Int) →
      (updateRelayStatus s).humidifierOn = true) ∧
    (s.humidifierOn →
      (s.persistentConfiguration.humidifierUpperOffThreshold : Int) ≤ s.liveData.humidity →
      (updateRelayStatus s).humidifierOn = false) ∧
    ((s.persistentConfiguration.humidifierLowerOnThreshold : Int) < s.liveData.humidity →
      s.liveData.humidity < (s.persistentConfiguration.humidifierUpperOffThreshold : Int) →
      (updateRelayStatus s).humidifierOn = s.humidifierOn) ∧
    ((relayAfterReadings exampleHysteresisState [85]).humidifierOn = false ∧
     (relayAfterReadings exampleHysteresisState [85, 80]).humidifierOn = true ∧
     (relayAfterReadings exampleHysteresisState [85, 80, 79]).humidifierOn = true ∧
     (relayAfterReadings exampleHysteresisState [85, 80, 79, 94, 81, 90]).humidifierOn = true ∧
     (relayAfterReadings exampleHysteresisState [85, 80, 79, 95]).humidifierOn = false) := by
  have hdef : (updateRelayStatus s).humidifierOn =
      if ¬s.humidifierOn ∧
         s.liveData.humidity ≤ (s.persistentConfiguration.humidifierLowerOnThreshold : Int) then
        true
      else if s.humidifierOn ∧
         (s.persistentConfiguration.humidifierUpperOffThreshold : Int) ≤ s.liveData.humidity then
        false
      else
        s.humidifierOn := rfl
  refine ⟨?_, ?_, ?_, by decide, by decide, by decide, by decide, by decide⟩
  · intro hoff hle
    rw [hdef, if_pos ⟨hoff, hle⟩]
  · intro hon hge
    rw [hdef, if_neg (fun hc => hc.1 hon), if_pos ⟨hon, hge⟩]
  · intro hlt hgt
    rw [hdef, if_neg (fun hc => absurd hc.2 (by omega)),
        if_neg (fun hc => absurd hc.2 (by omega))]

/-- Claim C4, witness: with the example configuration (lower 80, upper 95)
and humidity 80 while off, the relay turns on. -/
theorem C4_relay_hysteresis_witness :
    (updateRelayStatus
      { exampleHysteresisState with
        liveData := { temperature := 0, humidity := 80 } }).humidifierOn = true :=
  (C4_relay_hysteresis
    { exampleHysteresisState with
      liveData := { temperature := 0, humidity := 80 } }).1 (by decide) (by decide)

/- Claim C5 -/

/-- Stage 3 leaves liveData unchanged. -/
theorem liveData_minTempStage (s : SystemState) :
    (updateSensorDataMinTemp s).liveData = s.liveData := by
  unfold updateSensorDataMinTemp
  split <;> rfl

/-- Stage 4 leaves liveData unchanged. -/
theorem liveData_maxTempStage (s : SystemState) :
    (updateSensorDataMaxTemp s).liveData = s.liveData := by
  unfold updateSensorDataMaxTemp
  split <;> rfl

/-- Stage 5 leaves liveData unchanged. -/
theorem liveData_minHumidityStage (s : SystemState) :
    (updateSensorDataMinHumidity s).liveData = s.liveData := by
  unfold updateSensorDataMinHumidity
  split <;> rfl

/-- Stage 6 leaves liveData unchanged. -/
theorem liveData_maxHumidityStage (s : SystemState) :
    (updateSensorDataMaxHumidity s).liveData = s.liveData := by
  unfold updateSensorDataMaxHumidity
  split <;> rfl

/-- Stage 4 leaves minData unchanged. -/
theorem minData_maxTempStage (s : SystemState) :
    (updateSensorDataMaxTemp s).minData = s.minData := by
  unfold updateSensorDataMaxTemp
  split <;> rfl

/-- Stage 5 leaves the minimum temperature unchanged. -/
theorem minDataTemp_minHumidityStage (s : SystemState) :
    (updateSensorDataMinHumidity s).minData.temperature = s.minData.temperature := by
  unfold updateSensorDataMinHumidity
  split <;> rfl

/-- Stage 6 leaves minData unchanged. -/
theorem minData_maxHumidityStage (s : SystemState) :
    (updateSensorDataMaxHumidity s).minData = s.minData := by
  unfold updateSensorDataMaxHumidity
  split <;> rfl

/-- Stage 5 leaves maxData unchanged. -/
theorem maxData_minHumidityStage (s : SystemState) :
    (updateSensorDataMinHumidity s).maxData = s.maxData := by
  unfold updateSensorDataMinHumidity
  split <;> rfl

/-- Stage 6 leaves the maximum temperature unchanged. -/
theorem maxDataTemp_maxHumidityStage (s : SystemState) :
    (updateSensorDataMaxHumidity s).maxData.temperature = s.maxData.temperature := by
  unfold updateSensorDataMaxHumidity
  split <;> rfl

/-- After stage 3 the minimum temperature is at or below the live one. -/
theorem minTemp_le_after_stage (s : SystemState) :
    (updateSensorDataMinTemp s).minData.temperature ≤
      (updateSensorDataMinTemp s).liveData.temperature := by
  unfold updateSensorDataMinTemp
  split
  · exact le_rfl
  · rename_i hge
    omega

/-- After stage 4 the live temperature is at or below the maximum one. -/
theorem maxTemp_ge_after_stage (s : SystemState) :
    (updateSensorDataMaxTemp s).liveData.temperature ≤
      (updateSensorDataMaxTemp s).maxData.temperature := by
  unfold updateSensorDataMaxTemp
  split
  · exact le_rfl
  · rename_i hle
    omega

/-- After stage 5 the minimum humidity is at or below the live one. -/
theorem minHumidity_le_after_stage (s : SystemState) :
    (updateSensorDataMinHumidity s).minData.humidity ≤
      (updateSensorDataMinHumidity s).liveData.humidity := by
  unfold updateSensorDataMinHumidity
  split
  · exact le_rfl
  · rename_i hge
    omega

/-- After stage 6 the live humidity is at or below the maximum one. -/
theorem maxHumidity_ge_after_stage (s : SystemState) :
    (updateSensorDataMaxHumidity s).liveData.humidity ≤
      (updateSensorDataMaxHumidity s).maxData.humidity := by
  unfold updateSensorDataMaxHumidity
  split
  · exact le_rfl
  · rename_i hle
    omega

/-- Claim C5: after every call to updateSensorData — from any prior state, so
in particular after each reading of every sequence including the very
first — the minimum data lies at or below the live data and the live data at
or below the maximum data, componentwise for temperature and humidity. -/
theorem C5_extrema_bracket (s : SystemState) (t h : Int) :
    (updateSensorData s t h).minData.temperature ≤
      (updateSensorData s t h).liveData.temperature ∧
    (updateSensorData s t h).liveData.temperature ≤
      (updateSensorData s t h).maxData.temperature ∧
    (updateSensorData s t h).minData.humidity ≤
      (updateSensorData s t h).liveData.humidity ∧
    (updateSensorData s t h).liveData.humidity ≤
      (updateSensorData s t h).maxData.humidity := by
  unfold updateSensorData
  refine ⟨?_, ?_, ?_, ?_⟩
  · rw [minData_maxHumidityStage, liveData_maxHumidityStage,
        minDataTemp_minHumidityStage, liveData_minHumidityStage,
        minData_maxTempStage, liveData_maxTempStage]
    exact minTemp_le_after_stage _
  · rw [maxDataTemp_maxHumidityStage, liveData_maxHumidityStage,
        maxData_minHumidityStage, liveData_minHumidityStage]
    exact maxTemp_ge_after_stage _
  · rw [minData_maxHumidityStage, liveData_maxHumidityStage]
    exact minHumidity_le_after_stage _
  · exact maxHumidity_ge_after_stage _

/- Claim C6 -/

/-- The lower-threshold branch of onActionButton, characterized on the
configuration: add 2 modulo 256, then wrap to 60 when the result reaches or
exceeds the upper threshold. -/
theorem onActionButton_lower_eq (s : SystemState)
    (hm : s.currentMode = DisplayMode.humidifierLowerOnThreshold) :
    (onActionButton s).persistentConfiguration.humidifierLowerOnThreshold =
      (if s.persistentConfiguration.humidifierUpperOffThreshold ≤
            (s.persistentConfiguration.humidifierLowerOnThreshold + 2) % 256
        then 60
        else (s.persistentConfiguration.humidifierLowerOnThreshold + 2) % 256) ∧
    (onActionButton s).persistentConfiguration.humidifierUpperOffThreshold =
      s.persistentConfiguration.humidifierUpperOffThreshold ∧
    (onActionButton s).eeprom = (onActionButton s).persistentConfiguration := by
  unfold onActionButton
  rw [hm]
  refine ⟨?_, rfl, rfl⟩
  by_cases hc : s.persistentConfiguration.humidifierUpperOffThreshold ≤
      (s.persistentConfiguration.humidifierLowerOnThreshold + 2) % 256
  · rw [if_pos hc]
    simp only [ge_iff_le, if_pos hc]
  · rw [if_neg hc]
    simp only [ge_iff_le, if_neg hc]

/-- Claim C6: pressing the action button in lower-threshold mode adds the
step 2 to the lower threshold (byte arithmetic); when the result reaches or
exceeds the upper threshold the value wraps to the floor 60. From lower 98
and upper 100 one press yields lower 60, and as long as the upper threshold
exceeds 60 (true in every reachable configuration, see claim C8) the
resulting lower threshold stays strictly below the upper threshold. -/
theorem C6_lower_threshold_increment (s : SystemState)
    (hm : s.currentMode = DisplayMode.humidifierLowerOnThreshold)
    (hu : 60 < s.persistentConfiguration.humidifierUpperOffThreshold) :
    (onActionButton s).persistentConfiguration.humidifierLowerOnThreshold =
      (if s.persistentConfiguration.humidifierUpperOffThreshold ≤
            (s.persistentConfiguration.humidifierLowerOnThreshold + 2) % 256
        then 60
        else (s.persistentConfiguration.humidifierLowerOnThreshold + 2) % 256) ∧
    (onActionButton s).persistentConfiguration.humidifierLowerOnThreshold <
      (onActionButton s).persistentConfiguration.humidifierUpperOffThreshold ∧
    (s.persistentConfiguration.humidifierLowerOnThreshold = 98 →
      s.persistentConfiguration.humidifierUpperOffThreshold = 100 →
      (onActionButton s).persistentConfiguration.humidifierLowerOnThreshold = 60) := by
  obtain ⟨h1, h2, _⟩ := onActionButton_lower_eq s hm
  refine ⟨h1, ?_, ?_⟩
  · rw [h1, h2]
    split
    · omega
    · omega
  · intro h98 h100
    rw [h1, h98, h100]
    norm_num

/-- Claim C6, witness: from lower 98 and upper 100 one press yields lower 60,
strictly below the unchanged upper threshold. -/
theorem C6_lower_threshold_increment_witness :
    (onActionButton
      { initialState with
        currentMode := DisplayMode.humidifierLowerOnThreshold
        persistentConfiguration :=
          { defaultConfiguration with
            humidifierLowerOnThreshold := 98
            humidifierUpperOffThreshold := 100 } }).persistentConfiguration.humidifierLowerOnThreshold = 60 :=
  (C6_lower_threshold_increment
    { initialState with
      currentMode := DisplayMode.humidifierLowerOnThreshold
      persistentConfiguration :=
        { defaultConfiguration with
          humidifierLowerOnThreshold := 98
          humidifierUpperOffThreshold := 100 } }
    rfl (by decide)).2.2 rfl rfl

/- Claim C7 -/

/-- Claim C7: pressing the action button in upper-threshold mode adds the
step 2 to the upper threshold (byte arithmetic, here below overflow); when
the result exceeds 100 - 2 = 98 the value wraps to the lower threshold plus
2; in particular from upper 98 one press yields lower + 2. -/
theorem C7_upper_threshold_increment (s : SystemState)
    (hm : s.currentMode = DisplayMode.humidifierUpperOffThreshold)
    (hl : s.persistentConfiguration.humidifierLowerOnThreshold + 2 < 256)
    (hu : s.persistentConfiguration.humidifierUpperOffThreshold + 2 < 256) :
    (onActionButton s).persistentConfiguration.humidifierUpperOffThreshold =
      (if 98 < s.persistentConfiguration.humidifierUpperOffThreshold + 2
        then s.persistentConfiguration.humidifierLowerOnThreshold + 2
        else s.persistentConfiguration.humidifierUpperOffThreshold + 2) ∧
    (onActionButton s).persistentConfiguration.humidifierLowerOnThreshold =
      s.persistentConfiguration.humidifierLowerOnThreshold ∧
    (s.persistentConfiguration.humidifierUpperOffThreshold = 98 →
      (onActionButton s).persistentConfiguration.humidifierUpperOffThreshold =
        s.persistentConfiguration.humidifierLowerOnThreshold + 2) := by
  unfold onActionButton
  rw [hm]
  have e1 : (s.persistentConfiguration.humidifierUpperOffThreshold + 2) % 256 =
      s.persistentConfiguration.humidifierUpperOffThreshold + 2 :=
    Nat.mod_eq_of_lt hu
  have e2 : (s.persistentConfiguration.humidifierLowerOnThreshold + 2) % 256 =
      s.persistentConfiguration.humidifierLowerOnThreshold + 2 :=
    Nat.mod_eq_of_lt hl
  refine ⟨?_, rfl, ?_⟩
  · simp only [e1, e2]
  · intro h98
    simp only [e1, e2, h98]
    norm_num

/-- Claim C7, witness: from lower 80 and upper 98 one press wraps the upper
threshold to 82 = lower + 2. -/
theorem C7_upper_threshold_increment_witness :
    (onActionButton
      { initialState with
        currentMode := DisplayMode.humidifierUpperOffThreshold
        persistentConfiguration :=
          { defaultConfiguration with humidifierUpperOffThreshold := 98 } }).persistentConfiguration.humidifierUpperOffThreshold = 80 + 2 :=
  (C7_upper_threshold_increment
    { initialState with
      currentMode := DisplayMode.humidifierUpperOffThreshold
      persistentConfiguration :=
        { defaultConfiguration with humidifierUpperOffThreshold := 98 } }
    rfl (by decide) (by decide)).2.2 rfl

/- Claim C8 -/

/-- The upper-threshold branch of onActionButton, characterized on the
configuration: add 2 modulo 256, then wrap to the lower threshold plus 2
(modulo 256) when the result exceeds 100 - 2. -/
theorem onActionButton_upper_eq (s : SystemState)
    (hm : s.currentMode = DisplayMode.humidifierUpperOffThreshold) :
    (onActionButton s).persistentConfiguration.humidifierUpperOffThreshold =
      (if 100 - 2 < (s.persistentConfiguration.humidifierUpperOffThreshold + 2) % 256
        then (s.persistentConfiguration.humidifierLowerOnThreshold + 2) % 256
        else (s.persistentConfiguration.humidifierUpperOffThreshold + 2) % 256) ∧
    (onActionButton s).persistentConfiguration.humidifierLowerOnThreshold =
      s.persistentConfiguration.humidifierLowerOnThreshold ∧
    (onActionButton s).eeprom = (onActionButton s).persistentConfiguration := by
  unfold onActionButton
  rw [hm]
  exact ⟨rfl, rfl, rfl⟩

/-- The inductive invariant of the threshold-edit dynamics: both thresholds
even, the lower one at least the floor 60, strictly below the upper one,
which stays at or below the ceiling 98. -/
def ThresholdInvariant (c : PersistentConfiguration) : Prop :=
  c.humidifierLowerOnThreshold % 2 = 0 ∧
  c.humidifierUpperOffThreshold % 2 = 0 ∧
  60 ≤ c.humidifierLowerOnThreshold ∧
  c.humidifierLowerOnThreshold < c.humidifierUpperOffThreshold ∧
  c.humidifierUpperOffThreshold ≤ 98

/-- One threshold-edit button press preserves the invariant. -/
theorem thresholdStep_preserves (s : SystemState) (a : ThresholdAction)
    (h : ThresholdInvariant s.persistentConfiguration) :
    ThresholdInvariant
      (onActionButton { s with currentMode := thresholdMode a }).persistentConfiguration := by
  obtain ⟨hle, hue, hlf, hlu, huc⟩ := h
  have e1 : (s.persistentConfiguration.humidifierUpperOffThreshold + 2) % 256 =
      s.persistentConfiguration.humidifierUpperOffThreshold + 2 :=
    Nat.mod_eq_of_lt (by omega)
  have e2 : (s.persistentConfiguration.humidifierLowerOnThreshold + 2) % 256 =
      s.persistentConfiguration.humidifierLowerOnThreshold + 2 :=
    Nat.mod_eq_of_lt (by omega)
  cases a
  · obtain ⟨h1, h2, _⟩ := onActionButton_lower_eq
      { s with currentMode := thresholdMode ThresholdAction.bumpLower } rfl
    dsimp only at h1 h2
    rw [e2] at h1
    refine ⟨?_, ?_, ?_, ?_, ?_⟩ <;> simp only [h1, h2] <;>
      first
      | (split <;> omega)
      | omega
  · obtain ⟨h1, h2, _⟩ := onActionButton_upper_eq
      { s with currentMode := thresholdMode ThresholdAction.bumpUpper } rfl
    dsimp only at h1 h2
    rw [e1, e2] at h1
    refine ⟨?_, ?_, ?_, ?_, ?_⟩ <;> simp only [h1, h2] <;>
      first
      | (split <;> omega)
      | omega

/-- Every finite sequence of threshold-edit button presses preserves the
invariant. -/
theorem runThresholdActions_preserves (acts : List ThresholdAction) :
    ∀ s : SystemState, ThresholdInvariant s.persistentConfiguration →
      ThresholdInvariant (runThresholdActions s acts).persistentConfiguration := by
  induction acts with
  | nil => intro s h; exact h
  | cons a rest ih =>
    intro s h
    exact ih _ (thresholdStep_preserves s a h)

/-- Claim C8: starting from the default configuration (lower 80, upper 96),
after every finite sequence of threshold-increment button actions both
thresholds stay within [60, 100] and the lower threshold stays strictly below
the upper one. -/
theorem C8_threshold_bounds (s : SystemState) (acts : List ThresholdAction)
    (h80 : s.persistentConfiguration.humidifierLowerOnThreshold = 80)
    (h96 : s.persistentConfiguration.humidifierUpperOffThreshold = 96) :
    60 ≤ (runThresholdActions s acts).persistentConfiguration.humidifierLowerOnThreshold ∧
    (runThresholdActions s acts).persistentConfiguration.humidifierLowerOnThreshold ≤ 100 ∧
    60 ≤ (runThresholdActions s acts).persistentConfiguration.humidifierUpperOffThreshold ∧
    (runThresholdActions s acts).persistentConfiguration.humidifierUpperOffThreshold ≤ 100 ∧
    (runThresholdActions s acts).persistentConfiguration.humidifierLowerOnThreshold <
      (runThresholdActions s acts).persistentConfiguration.humidifierUpperOffThreshold := by
  have hinv : ThresholdInvariant s.persistentConfiguration := by
    refine ⟨?_, ?_, ?_, ?_, ?_⟩ <;> simp only [h80, h96] <;> omega
  obtain ⟨_, _, hlf, hlu, huc⟩ := runThresholdActions_preserves acts s hinv
  exact ⟨hlf, by omega, by omega, by omega, hlu⟩

/-- Claim C8, witness: ten alternating presses from the default state keep
both thresholds in range with the lower strictly below the upper. -/
theorem C8_threshold_bounds_witness :
    60 ≤ (runThresholdActions initialState
        [ThresholdAction.bumpLower, ThresholdAction.bumpUpper,
         ThresholdAction.bumpUpper, ThresholdAction.bumpLower,
         ThresholdAction.bumpLower, ThresholdAction.bumpUpper,
         ThresholdAction.bumpLower, ThresholdAction.bumpLower,
         ThresholdAction.bumpUpper, ThresholdAction.bumpLower]).persistentConfiguration.humidifierLowerOnThreshold ∧
    (runThresholdActions initialState
        [ThresholdAction.bumpLower, ThresholdAction.bumpUpper,
         ThresholdAction.bumpUpper, ThresholdAction.bumpLower,
         ThresholdAction.bumpLower, ThresholdAction.bumpUpper,
         ThresholdAction.bumpLower, ThresholdAction.bumpLower,
         ThresholdAction.bumpUpper, ThresholdAction.bumpLower]).persistentConfiguration.humidifierLowerOnThreshold ≤ 100 ∧
    60 ≤ (runThresholdActions initialState
        [ThresholdAction.bumpLower, ThresholdAction.bumpUpper,
         ThresholdAction.bumpUpper, ThresholdAction.bumpLower,
         ThresholdAction.bumpLower, ThresholdAction.bumpUpper,
         ThresholdAction.bumpLower, ThresholdAction.bumpLower,
         ThresholdAction.bumpUpper, ThresholdAction.bumpLower]).persistentConfiguration.humidifierUpperOffThreshold ∧
    (runThresholdActions initialState
        [ThresholdAction.bumpLower, ThresholdAction.bumpUpper,
         ThresholdAction.bumpUpper, ThresholdAction.bumpLower,
         ThresholdAction.bumpLower, ThresholdAction.bumpUpper,
         ThresholdAction.bumpLower, ThresholdAction.bumpLower,
         ThresholdAction.bumpUpper, ThresholdAction.bumpLower]).persistentConfiguration.humidifierUpperOffThreshold ≤ 100 ∧
    (runThresholdActions initialState
        [ThresholdAction.bumpLower, ThresholdAction.bumpUpper,
         ThresholdAction.bumpUpper, ThresholdAction.bumpLower,
         ThresholdAction.bumpLower, ThresholdAction.bumpUpper,
         ThresholdAction.bumpLower, ThresholdAction.bumpLower,
         ThresholdAction.bumpUpper, ThresholdAction.bumpLower]).persistentConfiguration.humidifierLowerOnThreshold <
      (runThresholdActions initialState
        [ThresholdAction.bumpLower, ThresholdAction.bumpUpper,
         ThresholdAction.bumpUpper, ThresholdAction.bumpLower,
         ThresholdAction.bumpLower, ThresholdAction.bumpUpper,
         ThresholdAction.bumpLower, ThresholdAction.bumpLower,
         ThresholdAction.bumpUpper, ThresholdAction.bumpLower]).persistentConfiguration.humidifierUpperOffThreshold :=
  C8_threshold_bounds initialState
    [ThresholdAction.bumpLower, ThresholdAction.bumpUpper,
     ThresholdAction.bumpUpper, ThresholdAction.bumpLower,
     ThresholdAction.bumpLower, ThresholdAction.bumpUpper,
     ThresholdAction.bumpLower, ThresholdAction.bumpLower,
     ThresholdAction.bumpUpper, ThresholdAction.bumpLower] rfl rfl

/- Claim C9 -/

/-- Claim C9: when the persisted magic number differs from the expected
sentinel, setup overwrites the store with the all-defaults record, re-reads
it, and the active configuration equals the defaults (enabled, lower 80,
upper 96); a subsequent load of the repaired store yields the same store and
the same active configuration, so recovery is idempotent. -/
theorem C9_magic_recovery (e : PersistentConfiguration)
    (h : e.magicNumber ≠ EEPROM_MAGIC_NUMBER) :
    (setupLoadConfiguration e).2 = defaultConfiguration ∧
    (setupLoadConfiguration e).2.humidifierEnabled = true ∧
    (setupLoadConfiguration e).2.humidifierLowerOnThreshold = 80 ∧
    (setupLoadConfiguration e).2.humidifierUpperOffThreshold = 96 ∧
    setupLoadConfiguration (setupLoadConfiguration e).1 =
      ((setupLoadConfiguration e).1, (setupLoadConfiguration e).2) := by
  have h1 : setupLoadConfiguration e = (defaultConfiguration, defaultConfiguration) := by
    unfold setupLoadConfiguration
    rw [if_pos h]
  have h2 : setupLoadConfiguration defaultConfiguration =
      (defaultConfiguration, defaultConfiguration) := by
    unfold setupLoadConfiguration
    rw [if_neg (by decide)]
  rw [h1]
  exact ⟨rfl, rfl, rfl, rfl, h2⟩

/-- Claim C9, witness: a store with magic number 0 recovers to the default
record and a second load reproduces it. -/
theorem C9_magic_recovery_witness :
    (setupLoadConfiguration { defaultConfiguration with magicNumber := 0 }).2 =
      defaultConfiguration ∧
    (setupLoadConfiguration { defaultConfiguration with magicNumber := 0 }).2.humidifierEnabled = true ∧
    (setupLoadConfiguration { defaultConfiguration with magicNumber := 0 }).2.humidifierLowerOnThreshold = 80 ∧
    (setupLoadConfiguration { defaultConfiguration with magicNumber := 0 }).2.humidifierUpperOffThreshold = 96 ∧
    setupLoadConfiguration
        (setupLoadConfiguration { defaultConfiguration with magicNumber := 0 }).1 =
      ((setupLoadConfiguration { defaultConfiguration with magicNumber := 0 }).1,
       (setupLoadConfiguration { defaultConfiguration with magicNumber := 0 }).2) :=
  C9_magic_recovery { defaultConfiguration with magicNumber := 0 } (by decide)

/- Claim C10 -/

/-- onActionButton never changes the relay pin level: digitalWrite occurs
only inside updateRelayStatus. -/
theorem onActionButton_relayPin (s : SystemState) :
    (onActionButton s).relayPin = s.relayPin := by
  unfold onActionButton
  cases hm : s.currentMode <;> rfl

/-- onNextModeButton never changes the relay pin level. -/
theorem onNextModeButton_relayPin (s : SystemState) (now : Nat) :
    (onNextModeButton s now).relayPin = s.relayPin := rfl

/-- Claim C10: the relay pin is written only inside updateRelayStatus, which
the loop runs only on sensor-sampling ticks. An action-button press leaves
the pin level unchanged in every mode (while, in humidifierEnabled mode, it
flips the enabled flag and persists the new configuration to the EEPROM),
and a whole loop iteration whose sampling tick is not due — button presses
included — leaves the pin level unchanged. -/
theorem C10_relay_pin_frame (s : SystemState) (now samplingPeriod : Nat)
    (reading : Int × Int) (nextModePressed : Bool)
    (htick : ¬ s.nextSensorSampling < now) :
    (onActionButton s).relayPin = s.relayPin ∧
    (loopStep s now true nextModePressed reading samplingPeriod).relayPin = s.relayPin ∧
    (s.currentMode = DisplayMode.humidifierEnabled →
      (onActionButton s).persistentConfiguration.humidifierEnabled =
        !s.persistentConfiguration.humidifierEnabled ∧
      (onActionButton s).eeprom = (onActionButton s).persistentConfiguration) := by
  refine ⟨onActionButton_relayPin s, ?_, ?_⟩
  · unfold loopStep
    have hn1 : (onActionButton s).nextSensorSampling = s.nextSensorSampling := by
      unfold onActionButton
      cases hm : s.currentMode <;> rfl
    cases nextModePressed
    · simp only [if_true, if_false, Bool.false_eq_true]
      rw [if_neg (by rw [hn1]; omega)]
      exact onActionButton_relayPin s
    · simp only [if_true]
      rw [if_neg (by rw [onNextModeButton, hn1]; simpa using (by omega : ¬ s.nextSensorSampling < now))]
      rw [onNextModeButton_relayPin]
      exact onActionButton_relayPin s
  · intro hm
    unfold onActionButton
    rw [hm]
    exact ⟨rfl, rfl⟩

/-- Claim C10, witness: from the initial state with the sampling deadline in
the future, an action press inside a loop iteration leaves the pin level
unchanged. -/
theorem C10_relay_pin_frame_witness :
    (onActionButton
      { initialState with nextSensorSampling := 10 }).relayPin =
      ({ initialState with nextSensorSampling := 10 } : SystemState).relayPin ∧
    (loopStep { initialState with nextSensorSampling := 10 } 5 true false (0, 0) 2000).relayPin =
      ({ initialState with nextSensorSampling := 10 } : SystemState).relayPin :=
  ⟨(C10_relay_pin_frame { initialState with nextSensorSampling := 10 } 5 2000 (0, 0) false
      (by decide)).1,
   (C10_relay_pin_frame { initialState with nextSensorSampling := 10 } 5 2000 (0, 0) false
      (by decide)).2.1⟩

end TempHumidDisplay
